import Mathlib

/-
  Verification development for the aws_agent conversational deployment agent.

  The embedding follows the source layout:
  * `src/aws/aws_cli.py` — `AWSConfig.modify_config`, `EC2InstanceConfig`,
    `AutoScalingConfig` (pydantic models with field and cross-field validators);
  * `src/llm/llm_interface.py` — the classifier response parser
    `convert_raven_function_calling_response_to_function_name_and_args`;
  * `src/main.py` — the intent dispatcher `AWSAgent.handle_user_intent` and the
    turn loop `AWSAgent.run`;
  * `src/utils/sql_utils.py` — `SQLiteConnectionPool` and the keyword binding of
    `find_best_instance`.

  Python values that flow through keyword arguments are modelled by `PyValue`;
  Python `None` is the constructor `PyValue.none`.  Machine floats never undergo
  arithmetic in the modelled fragment (they are only parsed, stored and compared
  for equality), so float literals are carried exactly as rationals.
-/

set_option autoImplicit false
set_option maxRecDepth 10000

namespace AwsAgent

/-- Python scalar values appearing as keyword-argument and field values.
`strList` covers the one list-typed field (`AvailabilityZones : List[str]`);
the classifier parser never produces lists (non-literal arguments become
strings), so general nesting is not needed. -/
inductive PyValue where
  | none
  | int (n : Int)
  | float (q : Rat)
  | str (s : String)
  | bool (b : Bool)
  | strList (xs : List String)
  deriving DecidableEq

/-- Data fields of `EC2InstanceConfig` (src/aws/aws_cli.py:75-89).  The
`logging_function` callback field is modelled as the list of messages the
config emits (see `modifyConfigEC2`), not as data. -/
structure EC2Data where
  InstanceType : Option String
  ImageId : String
  MinCount : Int
  MaxCount : Int
  deriving DecidableEq

/-- Defaults of `EC2InstanceConfig` (src/aws/aws_cli.py:80-83). -/
def ec2Default : EC2Data :=
  { InstanceType := Option.none
    ImageId := "ami-0984f4b9e98be44bf"
    MinCount := 1
    MaxCount := 1 }

/-- Data fields of `AutoScalingConfig` (src/aws/aws_cli.py:92-104). -/
structure ASData where
  MinSize : Int
  MaxSize : Int
  DesiredCapacity : Int
  LaunchTemplateName : String
  VPCZoneIdentifier : String
  AvailabilityZones : List String
  deriving DecidableEq

/-- Defaults of `AutoScalingConfig` (src/aws/aws_cli.py:97-104). -/
def asDefault : ASData :=
  { MinSize := 1
    MaxSize := 1
    DesiredCapacity := 1
    LaunchTemplateName := "test"
    VPCZoneIdentifier := "subnet-test-1"
    AvailabilityZones := ["us-east-1a"] }

/-- `model_dump()` image of an `Option String` field. -/
def pyOfOptStr : Option String → PyValue
  | Option.none => PyValue.none
  | some s => PyValue.str s

/-- The `new_data` dictionary of `modify_config` specialised to the EC2
schema: one slot per pydantic data field, holding the raw (as yet
unvalidated) value. -/
structure EC2Raw where
  InstanceType : PyValue
  ImageId : PyValue
  MinCount : PyValue
  MaxCount : PyValue
  deriving DecidableEq

/-- `new_data` dictionary specialised to the autoscaling schema. -/
structure ASRaw where
  MinSize : PyValue
  MaxSize : PyValue
  DesiredCapacity : PyValue
  LaunchTemplateName : PyValue
  VPCZoneIdentifier : PyValue
  AvailabilityZones : PyValue
  deriving DecidableEq

/-- `self.model_dump()` for `EC2InstanceConfig` (src/aws/aws_cli.py:48). -/
def ec2Dump (e : EC2Data) : EC2Raw :=
  { InstanceType := pyOfOptStr e.InstanceType
    ImageId := PyValue.str e.ImageId
    MinCount := PyValue.int e.MinCount
    MaxCount := PyValue.int e.MaxCount }

/-- `self.model_dump()` for `AutoScalingConfig`. -/
def asDump (a : ASData) : ASRaw :=
  { MinSize := PyValue.int a.MinSize
    MaxSize := PyValue.int a.MaxSize
    DesiredCapacity := PyValue.int a.DesiredCapacity
    LaunchTemplateName := PyValue.str a.LaunchTemplateName
    VPCZoneIdentifier := PyValue.str a.VPCZoneIdentifier
    AvailabilityZones := PyValue.strList a.AvailabilityZones }

/-- Data-field names of `EC2InstanceConfig`, in declaration order. -/
def ec2FieldNames : List String := ["InstanceType", "ImageId", "MinCount", "MaxCount"]

/-- Data-field names of `AutoScalingConfig`, in declaration order. -/
def asFieldNames : List String :=
  ["MinSize", "MaxSize", "DesiredCapacity", "LaunchTemplateName",
   "VPCZoneIdentifier", "AvailabilityZones"]

/-! ### The attribute test of `modify_config`

The loop's branch condition is Python's `hasattr(self, key)`
(src/aws/aws_cli.py:51).  Which strings name attributes of the instance is
decided by Python's object model — the declared pydantic fields, but also
every method (`to_dict`, `modify_config`, `model_dump`, …), the `Config`
helper class and the declared `logging_function` callback field — not by
anything local to `modify_config`, so the test enters the embedding as an
oracle `hasAttr : String → Bool`, constrained in each theorem by what is
known: every declared data field is an attribute, and a schema-foreign key
such as `"Foo"` is not.

For a key that is an attribute but **not** one of the schema's data fields
the source behaves differently again: a `None` value is skipped silently
(no warning, no write — the fold below reproduces this exactly), while a
non-`None` value is folded into `new_data` and then either silently commits
(`logging_function`) or breaks the `setattr` commit loop with an escaping
exception (method names such as `to_dict`).  That last, non-`None` case is
the one part not reproduced by the fold (`ec2RawSet` ignores non-field
keys); every general theorem below therefore restricts its update domain to
`p.1 ∈ ec2FieldNames ∨ hasAttr p.1 = false`, keys on which the fold agrees
with the source. -/

/-- Attribute oracle used by concrete scenarios: the declared data fields
are attributes and the scenarios' schema-foreign keys (`Foo`, `gpu`) are
not — which is how `hasattr` answers on a real instance for exactly the
keys those scenarios use. -/
def ec2FieldsOnlyAttr (k : String) : Bool := k ∈ ec2FieldNames

/-- Scenario attribute oracle for the autoscaling config. -/
def asFieldsOnlyAttr (k : String) : Bool := k ∈ asFieldNames

/-- `new_data[key] = value` for the EC2 schema. -/
def ec2RawSet (r : EC2Raw) (k : String) (v : PyValue) : EC2Raw :=
  if k = "InstanceType" then { r with InstanceType := v }
  else if k = "ImageId" then { r with ImageId := v }
  else if k = "MinCount" then { r with MinCount := v }
  else if k = "MaxCount" then { r with MaxCount := v }
  else r

/-- `new_data[key] = value` for the autoscaling schema. -/
def asRawSet (r : ASRaw) (k : String) (v : PyValue) : ASRaw :=
  if k = "MinSize" then { r with MinSize := v }
  else if k = "MaxSize" then { r with MaxSize := v }
  else if k = "DesiredCapacity" then { r with DesiredCapacity := v }
  else if k = "LaunchTemplateName" then { r with LaunchTemplateName := v }
  else if k = "VPCZoneIdentifier" then { r with VPCZoneIdentifier := v }
  else if k = "AvailabilityZones" then { r with AvailabilityZones := v }
  else r

/-- The unknown-attribute warning of `modify_config`
(src/aws/aws_cli.py:55-56), with `self.__class__.__name__` substituted. -/
def noAttrMsg (className k : String) : String :=
  className ++ " has no attribute '" ++ k ++ "'. Please select a valid parameter to modify."

def ec2NoAttrMsg (k : String) : String := noAttrMsg "EC2InstanceConfig" k

def asNoAttrMsg (k : String) : String := noAttrMsg "AutoScalingConfig" k

/-- The `for key, value in kwargs.items()` loop of `modify_config`
(src/aws/aws_cli.py:50-56): keys with `hasattr` true and a non-`None` value
overwrite the dumped dictionary (`ec2RawSet`; a no-op for the
attribute-but-not-field keys excluded from every theorem's domain, see
above), `None` values are skipped silently, and keys with `hasattr` false
leave the dictionary alone and emit the warning.  Returns the folded
dictionary and the warnings in emission order. -/
def ec2ApplyKwargs (hasAttr : String → Bool) :
    EC2Raw → List (String × PyValue) → EC2Raw × List String
  | r, [] => (r, [])
  | r, (k, v) :: rest =>
    if hasAttr k then
      ec2ApplyKwargs hasAttr (if v = PyValue.none then r else ec2RawSet r k v) rest
    else
      let p := ec2ApplyKwargs hasAttr r rest
      (p.1, ec2NoAttrMsg k :: p.2)

/-- The kwargs loop of `modify_config` for the autoscaling schema. -/
def asApplyKwargs (hasAttr : String → Bool) :
    ASRaw → List (String × PyValue) → ASRaw × List String
  | r, [] => (r, [])
  | r, (k, v) :: rest =>
    if hasAttr k then
      asApplyKwargs hasAttr (if v = PyValue.none then r else asRawSet r k v) rest
    else
      let p := asApplyKwargs hasAttr r rest
      (p.1, asNoAttrMsg k :: p.2)

/-- Pydantic check of an `Optional[str]` field.  The validation functions
check types exactly (an `int` field accepts only a Python `int`): no claim
exercises pydantic's lax cross-type coercions, and in the exercised fragment
the committed raw values coincide with the validated ones. -/
def asOptStr : PyValue → Except String (Option String)
  | PyValue.none => Except.ok Option.none
  | PyValue.str s => Except.ok (some s)
  | _ => Except.error "Input should be a valid string"

/-- Pydantic check of a `str` field. -/
def asStr : PyValue → Except String String
  | PyValue.str s => Except.ok s
  | _ => Except.error "Input should be a valid string"

/-- Pydantic check of an `int` field declared with `Field(ge=1)`. -/
def asIntGe1 : PyValue → Except String Int
  | PyValue.int n =>
    if 1 ≤ n then Except.ok n else Except.error "Input should be greater than or equal to 1"
  | _ => Except.error "Input should be a valid integer"

/-- Pydantic check of a `List[str]` field. -/
def asStrList : PyValue → Except String (List String)
  | PyValue.strList xs => Except.ok xs
  | _ => Except.error "Input should be a valid list"

/-- `EC2InstanceConfig.model_validate` (fields in declaration order, then the
`validate_counts` model validator, src/aws/aws_cli.py:85-89).  The returned
error string is the `msg` of the first entry of `ValidationError.errors()`;
model-validator failures carry pydantic's `Value error, ` prefix. -/
def ec2ModelValidate (r : EC2Raw) : Except String EC2Data := do
  let it ← asOptStr r.InstanceType
  let im ← asStr r.ImageId
  let mn ← asIntGe1 r.MinCount
  let mx ← asIntGe1 r.MaxCount
  if mx < mn then
    Except.error
      "Value error, MaxCount must be greater than MinCount. Try changing both values in the same query."
  else
    Except.ok { InstanceType := it, ImageId := im, MinCount := mn, MaxCount := mx }

/-- `AutoScalingConfig.model_validate` (fields in declaration order, then the
`validate_counts` model validator, src/aws/aws_cli.py:106-113). -/
def asModelValidate (r : ASRaw) : Except String ASData := do
  let mn ← asIntGe1 r.MinSize
  let mx ← asIntGe1 r.MaxSize
  let dc ← asIntGe1 r.DesiredCapacity
  let lt ← asStr r.LaunchTemplateName
  let vz ← asStr r.VPCZoneIdentifier
  let az ← asStrList r.AvailabilityZones
  if mx < mn then
    Except.error
      "Value error, MaxSize must be greater than MinSize. Try changing both in the same query."
  else if dc < mn ∨ mx < dc then
    Except.error "Value error, DesiredCapacity must be between MinSize and MaxSize"
  else
    Except.ok
      { MinSize := mn, MaxSize := mx, DesiredCapacity := dc, LaunchTemplateName := lt,
        VPCZoneIdentifier := vz, AvailabilityZones := az }

/-- `dropPrefixChars pat s`: tail of `s` after the prefix `pat`, when `pat`
is a prefix. -/
def dropPrefixChars : List Char → List Char → Option (List Char)
  | [], s => some s
  | _ :: _, [] => Option.none
  | p :: ps, c :: cs => if p = c then dropPrefixChars ps cs else Option.none

/-- Fuel-driven core of Python's `str.replace`: replaces every (leftmost,
non-overlapping) occurrence of `pat`.  `fuel` bounds the scan; it is always
called with the string's length, which suffices for the non-empty patterns
used here. -/
def pyReplaceAux (pat rep : List Char) : Nat → List Char → List Char
  | _, [] => []
  | 0, s => s
  | fuel + 1, c :: cs =>
    match dropPrefixChars pat (c :: cs) with
    | some tail => rep ++ pyReplaceAux pat rep fuel tail
    | Option.none => c :: pyReplaceAux pat rep fuel cs

/-- Python's `str.replace(pat, rep)` (for non-empty `pat`). -/
def pyReplace (s pat rep : String) : String :=
  String.mk (pyReplaceAux pat.data rep.data s.data.length s.data)

/-- The user-facing rejection line of `modify_config`
(src/aws/aws_cli.py:70-71): the first error's `msg` with
`'Value error, '` removed (`msg.replace('Value error, ', '')`), behind a
fixed preamble. -/
def invalidMsg (m : String) : String :=
  "\nThe modifications you specified are invalid. " ++ pyReplace m "Value error, " ""

/-- `AWSConfig.modify_config` (src/aws/aws_cli.py:39-72) on an
`EC2InstanceConfig`: dump, fold the keyword arguments, re-validate the whole
prospective dictionary, and either commit everything or return the receiver
unchanged with a rejection line appended to the emitted messages.  The second
component collects every string passed to `self.logging_function`. -/
def modifyConfigEC2 (hasAttr : String → Bool) (e : EC2Data)
    (kwargs : List (String × PyValue)) : EC2Data × List String :=
  let p := ec2ApplyKwargs hasAttr (ec2Dump e) kwargs
  match ec2ModelValidate p.1 with
  | Except.ok inst => (inst, p.2)
  | Except.error m => (e, p.2 ++ [invalidMsg m])

/-- `AWSConfig.modify_config` on an `AutoScalingConfig`. -/
def modifyConfigAS (hasAttr : String → Bool) (a : ASData)
    (kwargs : List (String × PyValue)) : ASData × List String :=
  let p := asApplyKwargs hasAttr (asDump a) kwargs
  match asModelValidate p.1 with
  | Except.ok inst => (inst, p.2)
  | Except.error m => (a, p.2 ++ [invalidMsg m])

/-- Value of key `key` in a kwargs dictionary (`PyValue.none` when absent;
Python keyword arguments have distinct keys, so theorems that depend on
dictionary semantics carry a `Nodup` hypothesis on the key list). -/
def kwVal : List (String × PyValue) → String → PyValue
  | [], _ => PyValue.none
  | (k, v) :: rest, key => if k = key then v else kwVal rest key

/-- The value a field named `key` holds after the kwargs loop: the update's
value when the key is present and not the `None` sentinel, the previous value
otherwise. -/
def pick (kw : List (String × PyValue)) (key : String) (old : PyValue) : PyValue :=
  if kwVal kw key = PyValue.none then old else kwVal kw key

theorem kwVal_eq_none_of_not_mem {kw : List (String × PyValue)} {k : String}
    (h : k ∉ kw.map Prod.fst) : kwVal kw k = PyValue.none := by
  induction kw with
  | nil => rfl
  | cons p rest ih =>
    obtain ⟨k', v⟩ := p
    simp only [List.map_cons, List.mem_cons, not_or] at h
    rw [kwVal, if_neg fun hk => h.1 hk.symm]
    exact ih h.2

theorem pick_of_not_mem {kw : List (String × PyValue)} {k : String} (old : PyValue)
    (h : k ∉ kw.map Prod.fst) : pick kw k old = old := by
  rw [pick, if_pos (kwVal_eq_none_of_not_mem h)]

theorem pick_cons_of_ne {k' k : String} (v : PyValue) (rest : List (String × PyValue))
    (old : PyValue) (h : k' ≠ k) : pick ((k', v) :: rest) k old = pick rest k old := by
  rw [pick, pick, kwVal, if_neg h]

theorem pick_cons_self {k : String} (v : PyValue) (rest : List (String × PyValue))
    (old : PyValue) :
    pick ((k, v) :: rest) k old = if v = PyValue.none then old else v := by
  rw [pick, kwVal, if_pos rfl]

/-- After the kwargs loop — over a domain where every key is a declared data
field or a non-attribute (see the attribute-test note above) — each EC2
field slot holds exactly the update's value when one was supplied (present
and non-`None`), and its previous value otherwise. -/
theorem ec2ApplyKwargs_fst (hasAttr : String → Bool) (kw : List (String × PyValue))
    (r : EC2Raw) (h : (kw.map Prod.fst).Nodup)
    (hdom : ∀ p ∈ kw, p.1 ∈ ec2FieldNames ∨ hasAttr p.1 = false)
    (hfields : ∀ f ∈ ec2FieldNames, hasAttr f = true) :
    (ec2ApplyKwargs hasAttr r kw).1 =
      { InstanceType := pick kw "InstanceType" r.InstanceType
        ImageId := pick kw "ImageId" r.ImageId
        MinCount := pick kw "MinCount" r.MinCount
        MaxCount := pick kw "MaxCount" r.MaxCount } := by
  induction kw generalizing r with
  | nil => simp [ec2ApplyKwargs, pick, kwVal]
  | cons p rest ih =>
    obtain ⟨k, v⟩ := p
    simp only [List.map_cons, List.nodup_cons] at h
    obtain ⟨hk, hnd⟩ := h
    have hdomr : ∀ p ∈ rest, p.1 ∈ ec2FieldNames ∨ hasAttr p.1 = false :=
      fun p hp => hdom p (List.mem_cons_of_mem _ hp)
    by_cases hattr : hasAttr k = true
    · have hmem : k ∈ ec2FieldNames := by
        rcases hdom (k, v) (List.mem_cons_self _ _) with hin | hfalse
        · exact hin
        · rw [hattr] at hfalse
          exact absurd hfalse (by simp)
      rw [ec2ApplyKwargs, if_pos hattr]
      simp only [ec2FieldNames, List.mem_cons, List.mem_singleton,
        List.not_mem_nil, or_false] at hmem
      rcases hmem with rfl | rfl | rfl | rfl <;>
        · rw [ih _ hnd hdomr]
          by_cases hv : v = PyValue.none <;>
            simp [hv, ec2RawSet, pick_cons_of_ne, pick_cons_self,
              pick_of_not_mem _ hk]
    · rw [ec2ApplyKwargs, if_neg hattr]
      rw [ih _ hnd hdomr]
      have hmem : k ∉ ec2FieldNames := fun hin => hattr (hfields k hin)
      simp only [ec2FieldNames, List.mem_cons, List.mem_singleton,
        List.not_mem_nil, or_false, not_or] at hmem
      obtain ⟨h1, h2, h3, h4⟩ := hmem
      rw [pick_cons_of_ne _ _ _ h1, pick_cons_of_ne _ _ _ h2,
        pick_cons_of_ne _ _ _ h3, pick_cons_of_ne _ _ _ h4]

/-- The kwargs loop emits exactly one warning per `hasattr`-false key, in
kwargs order, and nothing else. -/
theorem ec2ApplyKwargs_snd (hasAttr : String → Bool) (kw : List (String × PyValue))
    (r : EC2Raw) :
    (ec2ApplyKwargs hasAttr r kw).2 =
      (kw.filter (fun p => !(hasAttr p.1))).map (fun p => ec2NoAttrMsg p.1) := by
  induction kw generalizing r with
  | nil => rfl
  | cons p rest ih =>
    obtain ⟨k, v⟩ := p
    by_cases hattr : hasAttr k = true <;>
      simp [ec2ApplyKwargs, hattr, List.filter_cons, ih, Bool.not_eq_true]

/-- After the kwargs loop, each autoscaling field slot holds exactly the
update's value when one was supplied, and its previous value otherwise. -/
theorem asApplyKwargs_fst (hasAttr : String → Bool) (kw : List (String × PyValue))
    (r : ASRaw) (h : (kw.map Prod.fst).Nodup)
    (hdom : ∀ p ∈ kw, p.1 ∈ asFieldNames ∨ hasAttr p.1 = false)
    (hfields : ∀ f ∈ asFieldNames, hasAttr f = true) :
    (asApplyKwargs hasAttr r kw).1 =
      { MinSize := pick kw "MinSize" r.MinSize
        MaxSize := pick kw "MaxSize" r.MaxSize
        DesiredCapacity := pick kw "DesiredCapacity" r.DesiredCapacity
        LaunchTemplateName := pick kw "LaunchTemplateName" r.LaunchTemplateName
        VPCZoneIdentifier := pick kw "VPCZoneIdentifier" r.VPCZoneIdentifier
        AvailabilityZones := pick kw "AvailabilityZones" r.AvailabilityZones } := by
  induction kw generalizing r with
  | nil => simp [asApplyKwargs, pick, kwVal]
  | cons p rest ih =>
    obtain ⟨k, v⟩ := p
    simp only [List.map_cons, List.nodup_cons] at h
    obtain ⟨hk, hnd⟩ := h
    have hdomr : ∀ p ∈ rest, p.1 ∈ asFieldNames ∨ hasAttr p.1 = false :=
      fun p hp => hdom p (List.mem_cons_of_mem _ hp)
    by_cases hattr : hasAttr k = true
    · have hmem : k ∈ asFieldNames := by
        rcases hdom (k, v) (List.mem_cons_self _ _) with hin | hfalse
        · exact hin
        · rw [hattr] at hfalse
          exact absurd hfalse (by simp)
      rw [asApplyKwargs, if_pos hattr]
      simp only [asFieldNames, List.mem_cons, List.mem_singleton,
        List.not_mem_nil, or_false] at hmem
      rcases hmem with rfl | rfl | rfl | rfl | rfl | rfl <;>
        · rw [ih _ hnd hdomr]
          by_cases hv : v = PyValue.none <;>
            simp [hv, asRawSet, pick_cons_of_ne, pick_cons_self,
              pick_of_not_mem _ hk]
    · rw [asApplyKwargs, if_neg hattr]
      rw [ih _ hnd hdomr]
      have hmem : k ∉ asFieldNames := fun hin => hattr (hfields k hin)
      simp only [asFieldNames, List.mem_cons, List.mem_singleton,
        List.not_mem_nil, or_false, not_or] at hmem
      obtain ⟨h1, h2, h3, h4, h5, h6⟩ := hmem
      rw [pick_cons_of_ne _ _ _ h1, pick_cons_of_ne _ _ _ h2,
        pick_cons_of_ne _ _ _ h3, pick_cons_of_ne _ _ _ h4,
        pick_cons_of_ne _ _ _ h5, pick_cons_of_ne _ _ _ h6]

/-- The autoscaling kwargs loop emits exactly one warning per
`hasattr`-false key. -/
theorem asApplyKwargs_snd (hasAttr : String → Bool) (kw : List (String × PyValue))
    (r : ASRaw) :
    (asApplyKwargs hasAttr r kw).2 =
      (kw.filter (fun p => !(hasAttr p.1))).map (fun p => asNoAttrMsg p.1) := by
  induction kw generalizing r with
  | nil => rfl
  | cons p rest ih =>
    obtain ⟨k, v⟩ := p
    by_cases hattr : hasAttr k = true <;>
      simp [asApplyKwargs, hattr, List.filter_cons, ih, Bool.not_eq_true]

/-- The invariants an `EC2InstanceConfig` instance satisfies whenever pydantic
construction or re-validation succeeded. -/
def ec2Valid (e : EC2Data) : Bool :=
  (1 ≤ e.MinCount) && (1 ≤ e.MaxCount) && (e.MinCount ≤ e.MaxCount)

/-- The invariants an `AutoScalingConfig` instance satisfies. -/
def asValid (a : ASData) : Bool :=
  (1 ≤ a.MinSize) && (1 ≤ a.MaxSize) && (1 ≤ a.DesiredCapacity) &&
    (a.MinSize ≤ a.MaxSize) && (a.MinSize ≤ a.DesiredCapacity) &&
    (a.DesiredCapacity ≤ a.MaxSize)

/-- Re-validating the dump of a valid EC2 config reconstructs it unchanged. -/
theorem ec2ModelValidate_dump (e : EC2Data) (h : ec2Valid e = true) :
    ec2ModelValidate (ec2Dump e) = Except.ok e := by
  obtain ⟨it, im, mn, mx⟩ := e
  simp only [ec2Valid, Bool.and_eq_true, decide_eq_true_eq] at h
  obtain ⟨⟨h1, h2⟩, h3⟩ := h
  have h4 : ¬ mx < mn := not_lt.mpr h3
  cases it <;>
    simp [ec2ModelValidate, ec2Dump, pyOfOptStr, asOptStr, asStr, asIntGe1,
      Bind.bind, Except.bind, h1, h2, h4]

/-- Re-validating the dump of a valid autoscaling config reconstructs it. -/
theorem asModelValidate_dump (a : ASData) (h : asValid a = true) :
    asModelValidate (asDump a) = Except.ok a := by
  obtain ⟨mn, mx, dc, lt, vz, az⟩ := a
  simp only [asValid, Bool.and_eq_true, decide_eq_true_eq] at h
  obtain ⟨⟨⟨⟨⟨h1, h2⟩, h3⟩, h4⟩, h5⟩, h6⟩ := h
  have h7 : ¬ mx < mn := not_lt.mpr h4
  have h8 : ¬ (dc < mn ∨ mx < dc) := by
    rw [not_or]
    exact ⟨not_lt.mpr h5, not_lt.mpr h6⟩
  simp [asModelValidate, asDump, asStr, asStrList, asIntGe1, Bind.bind, Except.bind,
    h1, h2, h3, h7, h8]

/-- Kwargs whose values are all the `None` sentinel leave the dumped
dictionary untouched (src/aws/aws_cli.py:52 skips `None` values whenever
`hasattr` is true, and `hasattr`-false keys never write). -/
theorem ec2ApplyKwargs_fst_all_none (hasAttr : String → Bool)
    (kw : List (String × PyValue)) (r : EC2Raw)
    (h : ∀ p ∈ kw, p.2 = PyValue.none) : (ec2ApplyKwargs hasAttr r kw).1 = r := by
  induction kw generalizing r with
  | nil => rfl
  | cons p rest ih =>
    obtain ⟨k, v⟩ := p
    have hv : v = PyValue.none := h (k, v) (List.mem_cons_self _ _)
    have hrest : ∀ p ∈ rest, p.2 = PyValue.none := fun p hp => h p (List.mem_cons_of_mem _ hp)
    by_cases hattr : hasAttr k = true <;>
      simp [ec2ApplyKwargs, hattr, hv, ih _ hrest]

/-- Autoscaling analogue of `ec2ApplyKwargs_fst_all_none`. -/
theorem asApplyKwargs_fst_all_none (hasAttr : String → Bool)
    (kw : List (String × PyValue)) (r : ASRaw)
    (h : ∀ p ∈ kw, p.2 = PyValue.none) : (asApplyKwargs hasAttr r kw).1 = r := by
  induction kw generalizing r with
  | nil => rfl
  | cons p rest ih =>
    obtain ⟨k, v⟩ := p
    have hv : v = PyValue.none := h (k, v) (List.mem_cons_self _ _)
    have hrest : ∀ p ∈ rest, p.2 = PyValue.none := fun p hp => h p (List.mem_cons_of_mem _ hp)
    by_cases hattr : hasAttr k = true <;>
      simp [asApplyKwargs, hattr, hv, ih _ hrest]

theorem asOptStr_ok {v : PyValue} {o : Option String}
    (h : asOptStr v = Except.ok o) : v = pyOfOptStr o := by
  cases v <;> simp_all [asOptStr] <;> rw [← h] <;> rfl

theorem asStr_ok {v : PyValue} {s : String} (h : asStr v = Except.ok s) :
    v = PyValue.str s := by
  cases v <;> simp_all [asStr]

theorem asIntGe1_ok {v : PyValue} {n : Int} (h : asIntGe1 v = Except.ok n) :
    v = PyValue.int n := by
  cases v <;> simp_all [asIntGe1]
  split at h <;> simp_all

theorem asStrList_ok {v : PyValue} {xs : List String}
    (h : asStrList v = Except.ok xs) : v = PyValue.strList xs := by
  cases v <;> simp_all [asStrList]

/-- Successful re-validation relates each raw slot to the validated field. -/
theorem ec2ModelValidate_ok_fields {r : EC2Raw} {inst : EC2Data}
    (h : ec2ModelValidate r = Except.ok inst) :
    r.InstanceType = pyOfOptStr inst.InstanceType ∧
      r.ImageId = PyValue.str inst.ImageId ∧
      r.MinCount = PyValue.int inst.MinCount ∧
      r.MaxCount = PyValue.int inst.MaxCount := by
  unfold ec2ModelValidate at h
  cases hit : asOptStr r.InstanceType with
  | error e => rw [hit] at h; simp [Bind.bind, Except.bind] at h
  | ok it =>
  cases him : asStr r.ImageId with
  | error e => rw [hit, him] at h; simp [Bind.bind, Except.bind] at h
  | ok im =>
  cases hmn : asIntGe1 r.MinCount with
  | error e => rw [hit, him, hmn] at h; simp [Bind.bind, Except.bind] at h
  | ok mn =>
  cases hmx : asIntGe1 r.MaxCount with
  | error e => rw [hit, him, hmn, hmx] at h; simp [Bind.bind, Except.bind] at h
  | ok mx =>
  rw [hit, him, hmn, hmx] at h
  simp only [Bind.bind, Except.bind] at h
  split at h
  · exact absurd h (by simp)
  · have hinst : inst = ⟨it, im, mn, mx⟩ := by
      cases h; rfl
    subst hinst
    exact ⟨asOptStr_ok hit, asStr_ok him, asIntGe1_ok hmn, asIntGe1_ok hmx⟩

/-- Successful re-validation relates each autoscaling raw slot to the
validated field. -/
theorem asModelValidate_ok_fields {r : ASRaw} {inst : ASData}
    (h : asModelValidate r = Except.ok inst) :
    r.MinSize = PyValue.int inst.MinSize ∧
      r.MaxSize = PyValue.int inst.MaxSize ∧
      r.DesiredCapacity = PyValue.int inst.DesiredCapacity ∧
      r.LaunchTemplateName = PyValue.str inst.LaunchTemplateName ∧
      r.VPCZoneIdentifier = PyValue.str inst.VPCZoneIdentifier ∧
      r.AvailabilityZones = PyValue.strList inst.AvailabilityZones := by
  unfold asModelValidate at h
  cases hmn : asIntGe1 r.MinSize with
  | error e => rw [hmn] at h; simp [Bind.bind, Except.bind] at h
  | ok mn =>
  cases hmx : asIntGe1 r.MaxSize with
  | error e => rw [hmn, hmx] at h; simp [Bind.bind, Except.bind] at h
  | ok mx =>
  cases hdc : asIntGe1 r.DesiredCapacity with
  | error e => rw [hmn, hmx, hdc] at h; simp [Bind.bind, Except.bind] at h
  | ok dc =>
  cases hlt : asStr r.LaunchTemplateName with
  | error e => rw [hmn, hmx, hdc, hlt] at h; simp [Bind.bind, Except.bind] at h
  | ok lt =>
  cases hvz : asStr r.VPCZoneIdentifier with
  | error e => rw [hmn, hmx, hdc, hlt, hvz] at h; simp [Bind.bind, Except.bind] at h
  | ok vz =>
  cases haz : asStrList r.AvailabilityZones with
  | error e => rw [hmn, hmx, hdc, hlt, hvz, haz] at h; simp [Bind.bind, Except.bind] at h
  | ok az =>
  rw [hmn, hmx, hdc, hlt, hvz, haz] at h
  simp only [Bind.bind, Except.bind] at h
  split at h
  · exact absurd h (by simp)
  · split at h
    · exact absurd h (by simp)
    · have hinst : inst = ⟨mn, mx, dc, lt, vz, az⟩ := by
        cases h; rfl
      subst hinst
      exact ⟨asIntGe1_ok hmn, asIntGe1_ok hmx, asIntGe1_ok hdc,
        asStr_ok hlt, asStr_ok hvz, asStrList_ok haz⟩

/-- No warnings are emitted when every key is an attribute. -/
theorem ec2ApplyKwargs_snd_nil (hasAttr : String → Bool) (kw : List (String × PyValue))
    (r : EC2Raw) (hkeys : ∀ p ∈ kw, hasAttr p.1 = true) :
    (ec2ApplyKwargs hasAttr r kw).2 = [] := by
  rw [ec2ApplyKwargs_snd]
  have hfil : (kw.filter (fun p => !(hasAttr p.1))) = [] := by
    rw [List.filter_eq_nil_iff]
    intro p hp
    simp [hkeys p hp]
  rw [hfil, List.map_nil]

/-- Autoscaling analogue of `ec2ApplyKwargs_snd_nil`. -/
theorem asApplyKwargs_snd_nil (hasAttr : String → Bool) (kw : List (String × PyValue))
    (r : ASRaw) (hkeys : ∀ p ∈ kw, hasAttr p.1 = true) :
    (asApplyKwargs hasAttr r kw).2 = [] := by
  rw [asApplyKwargs_snd]
  have hfil : (kw.filter (fun p => !(hasAttr p.1))) = [] := by
    rw [List.filter_eq_nil_iff]
    intro p hp
    simp [hkeys p hp]
  rw [hfil, List.map_nil]

/-- C2: for either configuration kind, any partial update whose prospective
re-validation fails (in particular any cross-field-invariant violation:
`MinCount > MaxCount`, `MinSize > MaxSize`, or `DesiredCapacity` outside
`[MinSize, MaxSize]`) makes `modify_config` invoke the rejection callback
with the validation error message, leave every field exactly as before, and
return the unchanged configuration; on instance-config defaults
`{MinCount: 1, MaxCount: 1}` the update `{MinCount: 5}` alone is rejected
with the MaxCount/MinCount message and the config is unchanged. -/
theorem modify_config_invalid_update_atomic :
    (∀ (hasAttr : String → Bool) (e : EC2Data) (kw : List (String × PyValue)) (m : String),
        ec2ModelValidate (ec2ApplyKwargs hasAttr (ec2Dump e) kw).1 = Except.error m →
        modifyConfigEC2 hasAttr e kw =
          (e, (ec2ApplyKwargs hasAttr (ec2Dump e) kw).2 ++ [invalidMsg m])) ∧
    (∀ (hasAttr : String → Bool) (a : ASData) (kw : List (String × PyValue)) (m : String),
        asModelValidate (asApplyKwargs hasAttr (asDump a) kw).1 = Except.error m →
        modifyConfigAS hasAttr a kw =
          (a, (asApplyKwargs hasAttr (asDump a) kw).2 ++ [invalidMsg m])) ∧
    modifyConfigEC2 ec2FieldsOnlyAttr ec2Default [("MinCount", PyValue.int 5)] =
      (ec2Default,
        ["\nThe modifications you specified are invalid. MaxCount must be greater than MinCount. Try changing both values in the same query."]) := by
  refine ⟨?_, ?_, by decide⟩
  · intro hasAttr e kw m hfail
    simp only [modifyConfigEC2, hfail]
  · intro hasAttr a kw m hfail
    simp only [modifyConfigAS, hfail]

/-- C5: for either configuration kind, when every key of the update names a
declared data field (which `hasattr` therefore answers true for, the first
hypothesis) and the prospective configuration re-validates, `modify_config`
commits exactly the named non-`None` fields (each committed field holds the
update's value when one was supplied and its previous value otherwise),
emits no rejection, and returns the committed configuration; on
scaling-config defaults `{MinSize: 1, MaxSize: 1, DesiredCapacity: 1}` the
joint update `{MaxSize: 10, DesiredCapacity: 5}` commits both fields. -/
theorem modify_config_commits_known_valid_update :
    (∀ (hasAttr : String → Bool) (e : EC2Data) (kw : List (String × PyValue))
        (inst : EC2Data),
        (∀ f ∈ ec2FieldNames, hasAttr f = true) →
        (∀ p ∈ kw, p.1 ∈ ec2FieldNames) → (kw.map Prod.fst).Nodup →
        ec2ModelValidate (ec2ApplyKwargs hasAttr (ec2Dump e) kw).1 = Except.ok inst →
        modifyConfigEC2 hasAttr e kw = (inst, []) ∧
          pyOfOptStr inst.InstanceType =
            pick kw "InstanceType" (pyOfOptStr e.InstanceType) ∧
          PyValue.str inst.ImageId = pick kw "ImageId" (PyValue.str e.ImageId) ∧
          PyValue.int inst.MinCount = pick kw "MinCount" (PyValue.int e.MinCount) ∧
          PyValue.int inst.MaxCount = pick kw "MaxCount" (PyValue.int e.MaxCount)) ∧
    (∀ (hasAttr : String → Bool) (a : ASData) (kw : List (String × PyValue))
        (inst : ASData),
        (∀ f ∈ asFieldNames, hasAttr f = true) →
        (∀ p ∈ kw, p.1 ∈ asFieldNames) → (kw.map Prod.fst).Nodup →
        asModelValidate (asApplyKwargs hasAttr (asDump a) kw).1 = Except.ok inst →
        modifyConfigAS hasAttr a kw = (inst, []) ∧
          PyValue.int inst.MinSize = pick kw "MinSize" (PyValue.int a.MinSize) ∧
          PyValue.int inst.MaxSize = pick kw "MaxSize" (PyValue.int a.MaxSize) ∧
          PyValue.int inst.DesiredCapacity =
            pick kw "DesiredCapacity" (PyValue.int a.DesiredCapacity) ∧
          PyValue.str inst.LaunchTemplateName =
            pick kw "LaunchTemplateName" (PyValue.str a.LaunchTemplateName) ∧
          PyValue.str inst.VPCZoneIdentifier =
            pick kw "VPCZoneIdentifier" (PyValue.str a.VPCZoneIdentifier) ∧
          PyValue.strList inst.AvailabilityZones =
            pick kw "AvailabilityZones" (PyValue.strList a.AvailabilityZones)) ∧
    modifyConfigAS asFieldsOnlyAttr asDefault
        [("MaxSize", PyValue.int 10), ("DesiredCapacity", PyValue.int 5)] =
      ({ asDefault with MaxSize := 10, DesiredCapacity := 5 }, []) := by
  refine ⟨?_, ?_, by decide⟩
  · intro hasAttr e kw inst hattrs hkeys hnd hok
    have hmsgs : (ec2ApplyKwargs hasAttr (ec2Dump e) kw).2 = [] :=
      ec2ApplyKwargs_snd_nil hasAttr kw (ec2Dump e)
        (fun p hp => hattrs p.1 (hkeys p hp))
    refine ⟨?_, ?_⟩
    · simp only [modifyConfigEC2, hok, hmsgs]
    · have hr := ec2ApplyKwargs_fst hasAttr kw (ec2Dump e) hnd
        (fun p hp => Or.inl (hkeys p hp)) hattrs
      rw [hr] at hok
      have hf := ec2ModelValidate_ok_fields hok
      exact ⟨(hf.1).symm, (hf.2.1).symm, (hf.2.2.1).symm, (hf.2.2.2).symm⟩
  · intro hasAttr a kw inst hattrs hkeys hnd hok
    have hmsgs : (asApplyKwargs hasAttr (asDump a) kw).2 = [] :=
      asApplyKwargs_snd_nil hasAttr kw (asDump a)
        (fun p hp => hattrs p.1 (hkeys p hp))
    refine ⟨?_, ?_⟩
    · simp only [modifyConfigAS, hok, hmsgs]
    · have hr := asApplyKwargs_fst hasAttr kw (asDump a) hnd
        (fun p hp => Or.inl (hkeys p hp)) hattrs
      rw [hr] at hok
      have hf := asModelValidate_ok_fields hok
      exact ⟨(hf.1).symm, (hf.2.1).symm, (hf.2.2.1).symm, (hf.2.2.2.1).symm,
        (hf.2.2.2.2.1).symm, (hf.2.2.2.2.2).symm⟩

/-- C8 (amended): applying an update with no keys, or whose values all carry
the `None` sentinel, never changes any field of a valid configuration; and
it emits no rejection provided every key is an attribute of the
configuration object (`hasattr` true — in particular whenever every key
names a declared data field, as in the scenarios).  An all-`None` update
containing a non-attribute key still draws that key's warning (see the
counterexample), though the configuration remains unchanged. -/
theorem modify_config_all_none_update_noop :
    (∀ (hasAttr : String → Bool) (e : EC2Data) (kw : List (String × PyValue)),
        ec2Valid e = true → (∀ p ∈ kw, p.2 = PyValue.none) →
        (modifyConfigEC2 hasAttr e kw).1 = e ∧
          ((∀ p ∈ kw, hasAttr p.1 = true) →
            modifyConfigEC2 hasAttr e kw = (e, []))) ∧
    (∀ (hasAttr : String → Bool) (a : ASData) (kw : List (String × PyValue)),
        asValid a = true → (∀ p ∈ kw, p.2 = PyValue.none) →
        (modifyConfigAS hasAttr a kw).1 = a ∧
          ((∀ p ∈ kw, hasAttr p.1 = true) →
            modifyConfigAS hasAttr a kw = (a, []))) ∧
    modifyConfigEC2 ec2FieldsOnlyAttr ec2Default [("MinCount", PyValue.none)] =
      (ec2Default, []) ∧
    modifyConfigEC2 ec2FieldsOnlyAttr ec2Default [] = (ec2Default, []) := by
  refine ⟨?_, ?_, by decide, by decide⟩
  · intro hasAttr e kw hv hnone
    have hfold := ec2ApplyKwargs_fst_all_none hasAttr kw (ec2Dump e) hnone
    have hok : ec2ModelValidate (ec2ApplyKwargs hasAttr (ec2Dump e) kw).1 =
        Except.ok e := by
      rw [hfold]
      exact ec2ModelValidate_dump e hv
    refine ⟨?_, ?_⟩
    · simp only [modifyConfigEC2, hok]
    · intro hkeys
      have hmsgs : (ec2ApplyKwargs hasAttr (ec2Dump e) kw).2 = [] :=
        ec2ApplyKwargs_snd_nil hasAttr kw (ec2Dump e) hkeys
      simp only [modifyConfigEC2, hok, hmsgs]
  · intro hasAttr a kw hv hnone
    have hfold := asApplyKwargs_fst_all_none hasAttr kw (asDump a) hnone
    have hok : asModelValidate (asApplyKwargs hasAttr (asDump a) kw).1 =
        Except.ok a := by
      rw [hfold]
      exact asModelValidate_dump a hv
    refine ⟨?_, ?_⟩
    · simp only [modifyConfigAS, hok]
    · intro hkeys
      have hmsgs : (asApplyKwargs hasAttr (asDump a) kw).2 = [] :=
        asApplyKwargs_snd_nil hasAttr kw (asDump a) hkeys
      simp only [modifyConfigAS, hok, hmsgs]

/-! ## Classifier response parser (src/llm/llm_interface.py:142-208)

`convert_raven_function_calling_response_to_function_name_and_args` runs
`ast.parse` on the model's text and inspects the tree.  `ast.parse` is the
Python standard library; its outcome is modelled as
`Except String PyModule`: `Except.error` for any parse failure (the function
body is wrapped in `try/except Exception`, which returns the sentinel), and
`Except.ok` for a parsed module.  The inspection of the tree is embedded
below exactly as written in the source. -/

/-- Python AST expressions, covering the node kinds the parser
distinguishes: `ast.Name`, `ast.Attribute`, the literal `ast.Constant`
shapes matched by `isinstance(…, (ast.Str, ast.Num, ast.NameConstant))`,
`ast.Call`, and `ast.List` as a representative non-literal compound node. -/
inductive PyExpr where
  | name (id : String)
  | attribute (value : PyExpr) (attr : String)
  | constStr (s : String)
  | constInt (n : Int)
  | constFloat (q : Rat)
  | constBool (b : Bool)
  | constNone
  | call (func : PyExpr) (args : List PyExpr) (keywords : List (String × PyExpr))
  | listExpr (elts : List PyExpr)

/-- Python AST statements: an expression statement (`ast.Expr`) or any other
statement kind (assignment, definition, …), which the parser rejects. -/
inductive PyStmt where
  | exprStmt (e : PyExpr)
  | nonExpr

/-- `ast.Module`: the list of top-level statements. -/
structure PyModule where
  body : List PyStmt

/-- Join with a separator (Python's `', '.join`). -/
def joinSep (sep : String) : List String → String
  | [] => ""
  | [x] => x
  | x :: rest => x ++ sep ++ joinSep sep rest

/-- Fuel-driven rendering of `ast.dump` (the debug representation of an AST
node, e.g. `Name(id='x', ctx=Load())`).  The fuel (always called with
`sizeOf`, which bounds the tree depth) makes the recursion structural; float
constants are rendered as rationals, a cosmetic difference no claim
inspects. -/
def dumpExprFuel : Nat → PyExpr → String
  | 0, _ => ""
  | fuel + 1, e =>
    match e with
    | PyExpr.name id => "Name(id='" ++ id ++ "', ctx=Load())"
    | PyExpr.attribute v a =>
      "Attribute(value=" ++ dumpExprFuel fuel v ++ ", attr='" ++ a ++ "', ctx=Load())"
    | PyExpr.constStr s => "Constant(value='" ++ s ++ "')"
    | PyExpr.constInt n => "Constant(value=" ++ toString n ++ ")"
    | PyExpr.constFloat q => "Constant(value=" ++ toString q ++ ")"
    | PyExpr.constBool b => "Constant(value=" ++ (if b then "True" else "False") ++ ")"
    | PyExpr.constNone => "Constant(value=None)"
    | PyExpr.call f args kws =>
      "Call(func=" ++ dumpExprFuel fuel f ++ ", args=[" ++
        joinSep ", " (args.map (dumpExprFuel fuel)) ++ "], keywords=[" ++
        joinSep ", " (kws.map (fun kv =>
          "keyword(arg='" ++ kv.1 ++ "', value=" ++ dumpExprFuel fuel kv.2 ++ ")")) ++
        "])"
    | PyExpr.listExpr es =>
      "List(elts=[" ++ joinSep ", " (es.map (dumpExprFuel fuel)) ++ "], ctx=Load())"

/-- `str(ast.dump(node))`.  The fixed fuel mirrors CPython's own recursion
limit (about 1000): `ast.dump` cannot descend unboundedly either, and every
tree any claim touches is a few levels deep. -/
def dumpExpr (e : PyExpr) : String := dumpExprFuel 10000 e

/-- Whether the node is one of the literal classes the parser accepts
(`isinstance(keyword.value, (ast.Str, ast.Num, ast.NameConstant))`). -/
def isLiteralNode : PyExpr → Bool
  | PyExpr.constStr _ => true
  | PyExpr.constInt _ => true
  | PyExpr.constFloat _ => true
  | PyExpr.constBool _ => true
  | PyExpr.constNone => true
  | _ => false

def PyExpr.isCall : PyExpr → Bool
  | PyExpr.call _ _ _ => true
  | _ => false

/-- The parsed classification (src/llm/llm_interface.py:200): intent name and
keyword-argument dictionary. -/
structure FunctionCall where
  function_name : String
  kwargs : List (String × PyValue)
  deriving DecidableEq

/-- The out-of-scope sentinel (src/llm/llm_interface.py:164-167). -/
def outOfScopeResponse : FunctionCall :=
  { function_name := "user_intent_out_of_scope", kwargs := [] }

/-- Value of one keyword argument (src/llm/llm_interface.py:194-198):
`ast.literal_eval` for the accepted literal classes, otherwise
`str(ast.dump(value))`. -/
def kwValue : PyExpr → PyValue
  | PyExpr.constStr s => PyValue.str s
  | PyExpr.constInt n => PyValue.int n
  | PyExpr.constFloat q => PyValue.float q
  | PyExpr.constBool b => PyValue.bool b
  | PyExpr.constNone => PyValue.none
  | e => PyValue.str (dumpExpr e)

/-- Function-name extraction (src/llm/llm_interface.py:183-189): an
`ast.Name`'s identifier, an `ast.Attribute`'s attribute, otherwise
unsupported. -/
def funcName : PyExpr → Option String
  | PyExpr.name id => some id
  | PyExpr.attribute _ attr => some attr
  | _ => Option.none

/-- `convert_raven_function_calling_response_to_function_name_and_args`
(src/llm/llm_interface.py:142-208) applied to the outcome of `ast.parse`:
parse failures (the `except Exception` path), multi-statement or empty
modules, non-expression statements, non-call expressions and unsupported
function nodes yield the sentinel; a call yields its name and the converted
keyword arguments.  Note the source never reads `call.args`: positional
arguments are dropped, not rejected. -/
def convertResponse : Except String PyModule → FunctionCall
  | Except.error _ => outOfScopeResponse
  | Except.ok m =>
    match m.body with
    | [PyStmt.exprStmt e] =>
      match e with
      | PyExpr.call f _args kws =>
        match funcName f with
        | some nm =>
          { function_name := nm, kwargs := kws.map (fun kv => (kv.1, kwValue kv.2)) }
        | Option.none => outOfScopeResponse
      | _ => outOfScopeResponse
    | _ => outOfScopeResponse

/-- C3 (amended): every parse failure, empty or multi-statement module,
non-expression statement, non-call expression, and call whose function node
is neither a name nor an attribute degrades to the out-of-scope sentinel
(and, the whole body being a total function, nothing is ever raised); a call
whose function is a plain name, however, is accepted with its positional
arguments silently dropped and only the keyword arguments converted — it
does not produce the sentinel. -/
theorem convert_response_degrades_to_sentinel :
    (∀ msg : String, convertResponse (Except.error msg) = outOfScopeResponse) ∧
    convertResponse (Except.ok ⟨[]⟩) = outOfScopeResponse ∧
    (∀ (s1 s2 : PyStmt) (rest : List PyStmt),
        convertResponse (Except.ok ⟨s1 :: s2 :: rest⟩) = outOfScopeResponse) ∧
    convertResponse (Except.ok ⟨[PyStmt.nonExpr]⟩) = outOfScopeResponse ∧
    (∀ e : PyExpr, e.isCall = false →
        convertResponse (Except.ok ⟨[PyStmt.exprStmt e]⟩) = outOfScopeResponse) ∧
    (∀ (f : PyExpr) (args : List PyExpr) (kws : List (String × PyExpr)),
        funcName f = Option.none →
        convertResponse (Except.ok ⟨[PyStmt.exprStmt (PyExpr.call f args kws)]⟩) =
          outOfScopeResponse) ∧
    (∀ (nm : String) (args : List PyExpr) (kws : List (String × PyExpr)),
        convertResponse (Except.ok ⟨[PyStmt.exprStmt (PyExpr.call (PyExpr.name nm) args kws)]⟩) =
          { function_name := nm,
            kwargs := kws.map (fun kv => (kv.1, kwValue kv.2)) }) := by
  refine ⟨fun _ => rfl, rfl, fun s1 s2 rest => by cases s1 <;> rfl, rfl, ?_, ?_, fun _ _ _ => rfl⟩
  · intro e he
    cases e <;> first
      | rfl
      | simp [PyExpr.isCall] at he
  · intro f args kws hf
    cases f <;> first
      | rfl
      | simp [funcName] at hf

/-- C3 counterexample: `a(b())` — a call carrying an unsupported nested call
as a positional argument — is *not* mapped to the out-of-scope sentinel: the
parser returns `{function_name: "a", kwargs: {}}`, silently dropping the
positional argument (src/llm/llm_interface.py never reads `call.args`). -/
theorem convert_response_positional_call_cex :
    convertResponse (Except.ok ⟨[PyStmt.exprStmt
        (PyExpr.call (PyExpr.name "a") [PyExpr.call (PyExpr.name "b") [] []] [])]⟩) =
      { function_name := "a", kwargs := [] } ∧
    decide (convertResponse (Except.ok ⟨[PyStmt.exprStmt
        (PyExpr.call (PyExpr.name "a") [PyExpr.call (PyExpr.name "b") [] []] [])]⟩) =
      outOfScopeResponse) = false :=
  ⟨rfl, by decide⟩

/-- C7 (amended): `foo(a=1, b=2.5, c='x')` parses to name `foo` with keyword
arguments `{a: 1, b: 2.5, c: "x"}`; each accepted literal class maps to its
value, and any non-literal keyword value falls back to the string rendering
of the AST node (`str(ast.dump(value))`), not to the expression's source
text. -/
theorem convert_response_keyword_literals :
    convertResponse (Except.ok ⟨[PyStmt.exprStmt
        (PyExpr.call (PyExpr.name "foo") []
          [("a", PyExpr.constInt 1), ("b", PyExpr.constFloat (5 / 2)),
           ("c", PyExpr.constStr "x")])]⟩) =
      { function_name := "foo",
        kwargs := [("a", PyValue.int 1), ("b", PyValue.float (5 / 2)),
                   ("c", PyValue.str "x")] } ∧
    (∀ s, kwValue (PyExpr.constStr s) = PyValue.str s) ∧
    (∀ n, kwValue (PyExpr.constInt n) = PyValue.int n) ∧
    (∀ q, kwValue (PyExpr.constFloat q) = PyValue.float q) ∧
    (∀ b, kwValue (PyExpr.constBool b) = PyValue.bool b) ∧
    kwValue PyExpr.constNone = PyValue.none ∧
    (∀ e : PyExpr, isLiteralNode e = false →
        kwValue e = PyValue.str (dumpExpr e)) := by
  refine ⟨rfl, fun _ => rfl, fun _ => rfl, fun _ => rfl, fun _ => rfl, rfl, ?_⟩
  intro e he
  cases e <;> first
    | rfl
    | simp [isLiteralNode] at he

/-- C7 counterexample: for the non-literal keyword value in `foo(a=x)` the
parser stores `str(ast.dump(…))`, the AST debug rendering
`Name(id='x', ctx=Load())` — not the expression's literal source text `x` as
the claim states. -/
theorem convert_response_fallback_not_source_text_cex :
    convertResponse (Except.ok ⟨[PyStmt.exprStmt
        (PyExpr.call (PyExpr.name "foo") [] [("a", PyExpr.name "x")])]⟩) =
      { function_name := "foo",
        kwargs := [("a", PyValue.str "Name(id='x', ctx=Load())")] } ∧
    decide ((PyValue.str "Name(id='x', ctx=Load())") = PyValue.str "x") = false :=
  ⟨rfl, by decide⟩

/-! ## Dialogue controller and intent dispatcher (src/main.py)

`AWSAgent` holds the two configurations and the autoscaling flag; each turn
classifies the utterance and dispatches on the intent name.  The external
collaborators are abstracted as oracles: `lookup` stands for the SQL-backed
best-instance query (the spec treats it as an external collaborator) and
`deployLogs` for `EC2CLI.deploy`, whose body is wrapped in its own
`try/except` and only ever writes to the log sink.  All strings written to
the user-visible sink (and to `modify_config`'s `logging_function`, which
also prints) are collected in order. -/

/-- Session state owned by `AWSAgent` (src/main.py:37-40). -/
structure AgentState where
  ec2Config : EC2Data
  asConfig : ASData
  autoscalingEnabled : Bool
  deriving DecidableEq

/-- `AWSAgent.__init__` (src/main.py:37-40): default configs, the scaling
config's `VPCZoneIdentifier` overwritten with the session subnet id,
autoscaling off. -/
def initialAgentState (subnetId : String) : AgentState :=
  { ec2Config := ec2Default
    asConfig := { asDefault with VPCZoneIdentifier := subnetId }
    autoscalingEnabled := false }

/-- Python `repr` of a list of strings, as an f-string renders it. -/
def pyShowList (xs : List String) : String :=
  "[" ++ joinSep ", " (xs.map (fun s => "'" ++ s ++ "'")) ++ "]"

/-- `self.ec2_config.to_dict()` rendered as `param: value` lines
(src/ui/user_interface_cli.py:46-48); `to_dict(exclude_none=True)` drops the
`InstanceType` entry while it is `None` and field order follows declaration
order. -/
def ec2ConfigLines (e : EC2Data) : List String :=
  (match e.InstanceType with
   | some s => ["InstanceType: " ++ s]
   | Option.none => []) ++
  ["ImageId: " ++ e.ImageId,
   "MinCount: " ++ toString e.MinCount,
   "MaxCount: " ++ toString e.MaxCount]

/-- `self.as_config.to_dict()` rendered as `param: value` lines. -/
def asConfigLines (a : ASData) : List String :=
  ["MinSize: " ++ toString a.MinSize,
   "MaxSize: " ++ toString a.MaxSize,
   "DesiredCapacity: " ++ toString a.DesiredCapacity,
   "LaunchTemplateName: " ++ a.LaunchTemplateName,
   "VPCZoneIdentifier: " ++ a.VPCZoneIdentifier,
   "AvailabilityZones: " ++ pyShowList a.AvailabilityZones]

/-- `UserInterface.display_recommended_config`
(src/ui/user_interface_cli.py:27-50): a heading, then one log call with the
joined field lines. -/
def displayRecommendedConfig (lines : List String) (configType : String) : List String :=
  ["\nRecommended optimized " ++ configType ++ " config:", joinSep "\n" lines]

/-- `AWSAgent.display_current_deployment_config` (src/main.py:145-158): EC2
config always, scaling config only when autoscaling is enabled, then the
fixed closing prompt. -/
def displayCurrentDeploymentConfig (st : AgentState) : List String :=
  displayRecommendedConfig (ec2ConfigLines st.ec2Config) "EC2" ++
    (if st.autoscalingEnabled then
      displayRecommendedConfig (asConfigLines st.asConfig) "AutoScaling"
    else []) ++
    ["\nHow does this look?"]

/-- Python call binding for `AWSConfig.modify_config(self, **kwargs)`
(src/aws/aws_cli.py:39): the signature accepts *no* positional parameter
beyond `self`, so a call passing `positional` extra positional arguments
raises `TypeError` before the body runs (message as CPython ≥ 3.10 renders
it).  With zero positional arguments the body executes. -/
def callModifyConfigEC2 (hasAttr : String → Bool) (positional : Nat)
    (kwargs : List (String × PyValue)) (e : EC2Data) :
    Except String (EC2Data × List String) :=
  if positional ≠ 0 then
    Except.error ("AWSConfig.modify_config() takes 1 positional argument but " ++
      toString (positional + 1) ++ " were given")
  else
    Except.ok (modifyConfigEC2 hasAttr e kwargs)

/-- Call binding of `modify_config` on the autoscaling config. -/
def callModifyConfigAS (hasAttr : String → Bool) (positional : Nat)
    (kwargs : List (String × PyValue)) (a : ASData) :
    Except String (ASData × List String) :=
  if positional ≠ 0 then
    Except.error ("AWSConfig.modify_config() takes 1 positional argument but " ++
      toString (positional + 1) ++ " were given")
  else
    Except.ok (modifyConfigAS hasAttr a kwargs)

/-- Outcome of `find_best_instance` (src/utils/sql_utils.py:88-136): a hit
carries the row's `API_Name`, a miss carries the explanatory message. -/
inductive LookupResult where
  | found (apiName : String)
  | notFound (message : String)
  deriving DecidableEq

/-- The declared parameters of `find_best_instance(cpu, ram)`. -/
def findBestInstanceParams : List String := ["cpu", "ram"]

/-- Python call binding for `find_best_instance(**kwargs)`
(src/main.py:101): a keyword argument not named `cpu` or `ram` raises
`TypeError`; otherwise the defaults `DEFAULT_CPU = 2` and `DEFAULT_RAM = 8.0`
(src/config.py:6-7) fill the absent parameters and the query — an external
collaborator — is consulted through the `lookup` oracle. -/
def findBestInstanceCall (lookup : PyValue → PyValue → LookupResult)
    (kwargs : List (String × PyValue)) : Except String LookupResult :=
  match kwargs.find? (fun kv => kv.1 ∉ findBestInstanceParams) with
  | some kv =>
    Except.error ("find_best_instance() got an unexpected keyword argument '" ++
      kv.1 ++ "'")
  | Option.none =>
    let cpu := match kwargs.find? (fun kv => kv.1 = "cpu") with
      | some kv => kv.2
      | Option.none => PyValue.int 2
    let ram := match kwargs.find? (fun kv => kv.1 = "ram") with
      | some kv => kv.2
      | Option.none => PyValue.float 8
    Except.ok (lookup cpu ram)

/-- `AWSAgent.handle_user_intent` (src/main.py:45-143): dispatch on the
classified intent name.  `Except.error` models a Python exception escaping
the handler.  The modify-config branches reproduce the source's
`self.….modify_config(self.ui.log_to_user, **kwargs)` — one positional
argument against a keyword-only signature.  The attribute oracles are
instantiated with the declared data fields: the only key this dispatcher
ever delivers into a *running* `modify_config` body is the declared field
`InstanceType` (the modify intents die at the call binding), and on
declared fields every attribute oracle agrees. -/
def handleUserIntent (lookup : PyValue → PyValue → LookupResult)
    (deployLogs : AgentState → List String) (st : AgentState) (fc : FunctionCall) :
    Except String (AgentState × List String) :=
  if fc.function_name = "user_intent_ec2_type_selection" then
    match findBestInstanceCall lookup fc.kwargs with
    | Except.error e => Except.error e
    | Except.ok (LookupResult.found nm) =>
      match callModifyConfigEC2 ec2FieldsOnlyAttr 0 [("InstanceType", PyValue.str nm)]
          st.ec2Config with
      | Except.error e => Except.error e
      | Except.ok (e2, msgs) =>
        let st2 := { st with ec2Config := e2 }
        Except.ok (st2, msgs ++ displayCurrentDeploymentConfig st2)
    | Except.ok (LookupResult.notFound m) => Except.ok (st, [m])
  else if fc.function_name = "user_intent_confirm" then
    Except.ok (st, deployLogs st)
  else if fc.function_name = "user_intent_enable_autoscaling" then
    let st2 := { st with autoscalingEnabled := true }
    Except.ok (st2, displayCurrentDeploymentConfig st2)
  else if fc.function_name = "user_intent_display_current_deployment_config" then
    Except.ok (st, displayCurrentDeploymentConfig st)
  else if fc.function_name = "user_intent_modify_ec2_config" then
    match callModifyConfigEC2 ec2FieldsOnlyAttr 1 fc.kwargs st.ec2Config with
    | Except.error e => Except.error e
    | Except.ok (e2, msgs) =>
      let st2 := { st with ec2Config := e2 }
      Except.ok (st2, msgs ++ displayCurrentDeploymentConfig st2)
  else if fc.function_name = "user_intent_modify_as_config" then
    match callModifyConfigAS asFieldsOnlyAttr 1 fc.kwargs st.asConfig with
    | Except.error e => Except.error e
    | Except.ok (a2, msgs) =>
      let st2 := { st with asConfig := a2 }
      Except.ok (st2, msgs ++ displayCurrentDeploymentConfig st2)
  else
    Except.ok (st, ["Sorry, I didn't understand that. Please try again."])

/-- What one dispatch does to the session. -/
inductive TurnOutcome where
  | next (st : AgentState) (logs : List String)
  | sessionEnded (finalMessage : String)
  deriving DecidableEq

/-- One dispatch inside `AWSAgent.run`'s `try` block: an exception escaping
`handle_user_intent` is caught only by the top-level handler
(src/main.py:202-203), which logs `Error: {e}` and ends the session (the
loop is not re-entered). -/
def dispatchTurn (lookup : PyValue → PyValue → LookupResult)
    (deployLogs : AgentState → List String) (st : AgentState) (fc : FunctionCall) :
    TurnOutcome :=
  match handleUserIntent lookup deployLogs st fc with
  | Except.ok (st2, logs) => TurnOutcome.next st2 logs
  | Except.error e => TurnOutcome.sessionEnded ("Error: " ++ e)

/-- C1: contrary to the claim, every dispatched modify-instance-config or
modify-scaling-config intent raises `TypeError` — the dispatcher passes the
user-visible log sink positionally (src/main.py:129,142) into
`modify_config(self, **kwargs)`, which accepts no positional argument — so
`apply_partial_update` never runs, the config is not re-displayed, and the
exception escapes to the top-level loop, ending the session. -/
theorem modify_config_dispatch_type_error
    (lookup : PyValue → PyValue → LookupResult) (deployLogs : AgentState → List String)
    (st : AgentState) (kwargs : List (String × PyValue)) :
    dispatchTurn lookup deployLogs st
        { function_name := "user_intent_modify_ec2_config", kwargs := kwargs } =
      TurnOutcome.sessionEnded
        "Error: AWSConfig.modify_config() takes 1 positional argument but 2 were given" ∧
    dispatchTurn lookup deployLogs st
        { function_name := "user_intent_modify_as_config", kwargs := kwargs } =
      TurnOutcome.sessionEnded
        "Error: AWSConfig.modify_config() takes 1 positional argument but 2 were given" :=
  ⟨rfl, rfl⟩

/-- C10: a dispatched instance-type-selection intent whose keyword arguments
contain a name other than `cpu`/`ram` makes the forwarded
`find_best_instance(**kwargs)` call raise `TypeError`, which nothing catches
before the top-level loop: the session ends with the error report (shown
concretely for `gpu=1`).  The claim's contrast — that unknown fields in a
config-modification update only warn and let the session continue — fails on
the code: the modify-config dispatch raises `TypeError` itself (second
conjunct; the positional log-sink argument of src/main.py:129). -/
theorem ec2_type_selection_unexpected_kwarg_fatal :
    (∀ (lookup : PyValue → PyValue → LookupResult)
        (deployLogs : AgentState → List String) (st : AgentState)
        (kwargs : List (String × PyValue)) (k : String) (v : PyValue),
        kwargs.find? (fun kv => kv.1 ∉ findBestInstanceParams) = some (k, v) →
        dispatchTurn lookup deployLogs st
            { function_name := "user_intent_ec2_type_selection", kwargs := kwargs } =
          TurnOutcome.sessionEnded
            ("Error: find_best_instance() got an unexpected keyword argument '" ++
              k ++ "'")) ∧
    (∀ (lookup : PyValue → PyValue → LookupResult)
        (deployLogs : AgentState → List String) (st : AgentState)
        (kwargs : List (String × PyValue)),
        dispatchTurn lookup deployLogs st
            { function_name := "user_intent_modify_ec2_config", kwargs := kwargs } =
          TurnOutcome.sessionEnded
            "Error: AWSConfig.modify_config() takes 1 positional argument but 2 were given") ∧
    dispatchTurn (fun _ _ => LookupResult.notFound "") (fun _ => [])
        (initialAgentState "subnet-test-1")
        { function_name := "user_intent_ec2_type_selection",
          kwargs := [("gpu", PyValue.int 1)] } =
      TurnOutcome.sessionEnded
        "Error: find_best_instance() got an unexpected keyword argument 'gpu'" := by
  refine ⟨?_, fun _ _ _ _ => rfl, by decide⟩
  intro lookup deployLogs st kwargs k v hfind
  simp only [dispatchTurn, handleUserIntent, findBestInstanceCall, hfind]
  rfl

/-! ## The dialogue loop (src/main.py:160-203) and the reflection pass -/

/-- A transcript line for a user utterance (src/main.py:188). -/
def humanLine (u : String) : String := "<human> " ++ u ++ " <human_end>"

/-- A transcript line for an agent reply (src/main.py:198): the f-string
renders the classification dictionary. -/
def botLine (s : String) : String := "<bot> " ++ s ++ " <bot_end>"

/-- Observable trace of one iteration of the dialogue `while` loop:
the history handed to the classifier, the first classification, the history
handed to `reflect` (`none` when reflection is off), the call actually
dispatched, and the transcript after the iteration. -/
structure DialogueTurnTrace where
  classifyHistory : List String
  firstCall : FunctionCall
  reflectHistory : Option (List String)
  dispatchedCall : FunctionCall
  historyAfter : List String

/-- One iteration of `AWSAgent.run`'s dialogue loop (src/main.py:186-200).
The two LLM round trips are the oracles `classify`
(`get_llm_function_calling_response`) and `reflectO` (`reflect`); `render` is
the f-string rendering of the classification dictionary.  The source order
is: append the human line, classify, *then* — when reflection is enabled —
overwrite the response via `reflect` over the history as it stands (the bot
line has not been appended yet), then append the bot line of the (possibly
reflected) response and dispatch it. -/
def dialogueLoopTurn (classify reflectO : String → List String → FunctionCall)
    (render : FunctionCall → String) (runReflection : Bool)
    (history : List String) (userResponse : String) : DialogueTurnTrace :=
  let h1 := history ++ [humanLine userResponse]
  let first := classify userResponse h1
  let dispatched := if runReflection then reflectO userResponse h1 else first
  { classifyHistory := h1
    firstCall := first
    reflectHistory := if runReflection then some h1 else Option.none
    dispatchedCall := dispatched
    historyAfter := h1 ++ [botLine (render dispatched)] }

/-- C4: in the dialogue loop with reflection enabled, `reflect` is invoked
*before* the classification is appended to the transcript: it receives
exactly the history ending in the user's line (length `|history| + 1`, no
bot entry for this turn), contrary to the claim that the first
classification is appended first; the transcript then records the
*reflected* call's rendering, not the first classification, and the
reflected call is what gets dispatched (the replacement part of the claim
does hold). -/
theorem dialogue_loop_reflects_before_transcript_append
    (classify reflectO : String → List String → FunctionCall)
    (render : FunctionCall → String) (history : List String) (u : String) :
    (dialogueLoopTurn classify reflectO render true history u).reflectHistory =
        some (history ++ [humanLine u]) ∧
    (dialogueLoopTurn classify reflectO render true history u).firstCall =
        classify u (history ++ [humanLine u]) ∧
    (dialogueLoopTurn classify reflectO render true history u).dispatchedCall =
        reflectO u (history ++ [humanLine u]) ∧
    (dialogueLoopTurn classify reflectO render true history u).historyAfter =
        history ++ [humanLine u,
          botLine (render (reflectO u (history ++ [humanLine u])))] ∧
    ((dialogueLoopTurn classify reflectO render true history u).reflectHistory.map
        List.length) = some (history.length + 1) := by
  refine ⟨rfl, rfl, rfl, by simp [dialogueLoopTurn], by simp [dialogueLoopTurn]⟩

/-! ## SQLiteConnectionPool (src/utils/sql_utils.py:9-65) -/

/-- Pool state: pooled connection identifiers (most recently returned first —
Python appends and pops at the tail of `self.connections`, modelled here at
the head), the bound, and a counter for fresh `sqlite3.connect` handles. -/
structure PoolState where
  connections : List Nat
  maxConnections : Nat
  nextConnId : Nat
  deriving DecidableEq

inductive ConnDisposition where
  | returnedToPool
  | closed
  deriving DecidableEq

/-- `get_connection` (src/utils/sql_utils.py:24-36): pop a pooled connection
or open a fresh one.  The mutual-exclusion lock makes each operation atomic,
so each is one state transition here. -/
def getConnection (s : PoolState) : Nat × PoolState :=
  match s.connections with
  | c :: rest => (c, { s with connections := rest })
  | [] => (s.nextConnId, { s with nextConnId := s.nextConnId + 1 })

/-- `return_connection` (src/utils/sql_utils.py:38-53): re-pool when below
the bound, close otherwise. -/
def returnConnection (s : PoolState) (c : Nat) : PoolState × ConnDisposition :=
  if s.connections.length < s.maxConnections then
    ({ s with connections := c :: s.connections }, ConnDisposition.returnedToPool)
  else (s, ConnDisposition.closed)

/-- Result of running a body under the `connection()` context manager. -/
structure WithConnResult (ε α : Type) where
  result : Except ε α
  conn : Nat
  pool : PoolState
  disposition : ConnDisposition

/-- The `connection()` context manager (src/utils/sql_utils.py:55-65):
acquire, run the body, and — in the `finally` block, hence also when the
body raises (`Except.error`) — hand the connection to `return_connection`
before the body's outcome propagates. -/
def withConnection {ε α : Type} (s : PoolState) (body : Nat → Except ε α) :
    WithConnResult ε α :=
  let g := getConnection s
  let r := returnConnection g.2 g.1
  { result := body g.1, conn := g.1, pool := r.1, disposition := r.2 }

/-- C9: each pool operation preserves the bound `|connections| ≤
max_connections`, and a connection acquired through `connection()` is, on
exit, either back in the pool or closed — the body's outcome (success or
raised error) propagates unchanged either way; shown concretely for a body
that raises on an empty five-slot pool. -/
theorem connection_pool_bounded_and_released :
    (∀ s : PoolState, s.connections.length ≤ s.maxConnections →
        (getConnection s).2.connections.length ≤ s.maxConnections) ∧
    (∀ (s : PoolState) (c : Nat), s.connections.length ≤ s.maxConnections →
        (returnConnection s c).1.connections.length ≤ s.maxConnections) ∧
    (∀ (s : PoolState) (body : Nat → Except String Unit),
        s.connections.length ≤ s.maxConnections →
        (withConnection s body).pool.connections.length ≤ s.maxConnections ∧
        (withConnection s body).result = body (withConnection s body).conn ∧
        ((withConnection s body).disposition = ConnDisposition.returnedToPool →
          (withConnection s body).conn ∈ (withConnection s body).pool.connections) ∧
        ((withConnection s body).disposition = ConnDisposition.returnedToPool ∨
          (withConnection s body).disposition = ConnDisposition.closed)) ∧
    withConnection { connections := [], maxConnections := 5, nextConnId := 0 }
        (fun _ => (Except.error "boom" : Except String Unit)) =
      { result := Except.error "boom", conn := 0,
        pool := { connections := [0], maxConnections := 5, nextConnId := 1 },
        disposition := ConnDisposition.returnedToPool } := by
  have hget : ∀ s : PoolState, s.connections.length ≤ s.maxConnections →
      (getConnection s).2.connections.length ≤ s.maxConnections := by
    intro s h
    cases hc : s.connections with
    | nil =>
      rw [hc] at h
      simp only [getConnection, hc]
      exact h
    | cons c rest =>
      rw [hc] at h
      simp only [getConnection, hc, List.length_cons] at h ⊢
      omega
  have hgmax : ∀ s : PoolState, (getConnection s).2.maxConnections = s.maxConnections := by
    intro s
    cases hc : s.connections <;> simp [getConnection, hc]
  have hret : ∀ (s : PoolState) (c : Nat), s.connections.length ≤ s.maxConnections →
      (returnConnection s c).1.connections.length ≤ s.maxConnections := by
    intro s c h
    by_cases hlt : s.connections.length < s.maxConnections
    · simp only [returnConnection, if_pos hlt, List.length_cons]
      omega
    · simp only [returnConnection, if_neg hlt]
      exact h
  refine ⟨hget, hret, ?_, rfl⟩
  intro s body h
  have h2 : (getConnection s).2.connections.length ≤ (getConnection s).2.maxConnections := by
    rw [hgmax]
    exact hget s h
  have h3 := hret (getConnection s).2 (getConnection s).1 h2
  rw [hgmax] at h3
  refine ⟨h3, rfl, ?_, ?_⟩
  · intro hd
    by_cases hlt :
        (getConnection s).2.connections.length < (getConnection s).2.maxConnections
    · show (withConnection s body).conn ∈ (withConnection s body).pool.connections
      simp only [withConnection, returnConnection, if_pos hlt]
      exact List.mem_cons_self _ _
    · exfalso
      have hclosed : (withConnection s body).disposition = ConnDisposition.closed := by
        simp only [withConnection, returnConnection, if_neg hlt]
      rw [hclosed] at hd
      exact ConnDisposition.noConfusion hd
  · cases hd : (withConnection s body).disposition with
    | returnedToPool => exact Or.inl rfl
    | closed => exact Or.inr rfl

/-- C8 counterexample: `Foo` is not an attribute of the instance, so
`hasattr(self, "Foo")` is false and the all-`None` update `{Foo: None}` on
instance-config defaults leaves the configuration unchanged but *does*
invoke the rejection callback (once, with the unknown-attribute warning),
because `modify_config`'s loop warns on a `hasattr`-false key before
looking at its value — refuting the claim that an all-`None` update never
triggers the callback. -/
theorem modify_config_all_none_update_callback_cex :
    modifyConfigEC2 ec2FieldsOnlyAttr ec2Default [("Foo", PyValue.none)] =
      (ec2Default, [ec2NoAttrMsg "Foo"]) ∧
    decide ((modifyConfigEC2 ec2FieldsOnlyAttr ec2Default
        [("Foo", PyValue.none)]).2 = ([] : List String)) = false := by
  exact ⟨by decide, by decide⟩

end AwsAgent
